import Mathlib

/-!
Shallow embedding of the RC-receiver firmware in `src/src/main.cpp`
(J_ArdPorte_Remote): interrupt-driven pulse capture (`onRcChange`),
the 32-sample moving-average filter (`filterPulse`), the calibrated
percent mapping (`throttlePercentFromUs`), one iteration of the RC
input task (`taskRcInput`), and the `Blinker` scheduler.

Machine integers are modelled as `Nat` (unsigned) or `Int` (signed)
with explicit reductions modulo 2^16 / 2^32 exactly where the C types
truncate or wrap.
-/

namespace ArdPorte

/-- Truncation to `uint16_t` (a C cast to a 16-bit unsigned value). -/
def uint16 (n : Nat) : Nat := n % 65536

/-- Truncation to `uint32_t` (a C cast to a 32-bit unsigned value). -/
def uint32 (n : Nat) : Nat := n % 4294967296

/-- `uint32_t` subtraction `a - b`: wrapping (modular) subtraction mod 2^32. -/
def u32sub (a b : Nat) : Nat :=
  (a % 4294967296 + (4294967296 - b % 4294967296)) % 4294967296

/-- `(int32_t)(a - b) >= 0` for `uint32_t` operands: the wrapped difference
reinterpreted as a signed 32-bit value is nonnegative iff it is < 2^31. -/
def i32nonneg (a b : Nat) : Bool := u32sub a b < 2147483648

/-- The interrupt-context globals of the capture handler
(`gRiseUs`, `gLastPulseUs`, `gLastSeenMs`, main.cpp lines 80-82). -/
structure CaptureState where
  gRiseUs : Nat
  gLastPulseUs : Nat
  gLastSeenMs : Nat
  deriving DecidableEq, Repr

/-- Width computation of the falling-edge branch (main.cpp lines 94-95):
`uint32_t w = (t - gRiseUs); if (w > 0xFFFF) w = 0xFFFF;`. -/
def captureWidth (rise t : Nat) : Nat :=
  let w := u32sub t rise
  if 65535 < w then 65535 else w

/-- `onRcChange` (main.cpp lines 85-104). `lv` is the level read from the
pin (`true` = HIGH), `t` the `micros()` reading, `ms` the `millis()`
reading used in the publish branch. On HIGH it records the rise time;
on LOW it computes the clamped width `us = (uint16_t)w` and publishes
`{us, millis()}` only when `RC_MIN_US <= us && us <= RC_MAX_US`
(800 and 2200). -/
def onRcChange (lv : Bool) (t ms : Nat) (s : CaptureState) : CaptureState :=
  if lv then
    { s with gRiseUs := uint32 t }
  else
    let us := uint16 (captureWidth s.gRiseUs t)
    if 800 ≤ us ∧ us ≤ 2200 then
      { s with gLastPulseUs := us, gLastSeenMs := uint32 ms }
    else
      s

/-- The summation loop of `filterPulse` (main.cpp lines 121-124): fold over
the buffer accumulating `(sum, count)` of the strictly positive entries.
`sum` is a `uint32_t`; buffer entries are `uint16_t` so 32 of them cannot
overflow it, but the wrap is kept for faithfulness. -/
def sumCountGo : List Nat → Nat × Nat → Nat × Nat
  | [], sc => sc
  | v :: rest, sc =>
      sumCountGo rest (if 0 < v then ((sc.1 + v) % 4294967296, sc.2 + 1) else sc)

/-- `(sum, count)` over the whole 32-entry buffer. -/
def sumCount (l : List Nat) : Nat × Nat := sumCountGo l (0, 0)

/-- `filterPulse` (main.cpp lines 117-127). The buffer (`pulseBuffer`,
32 entries of `uint16_t`) and write index (`pulseIndex`) are globals;
they are threaded explicitly. Returns `(average, buffer', index')`;
the average is `(uint16_t)(sum / count)`, or 0 when `count == 0`. -/
def filterPulse (newVal : Nat) (buf : List Nat) (idx : Nat) : Nat × List Nat × Nat :=
  let buf2 := buf.set idx (uint16 newVal)
  let idx2 := if 32 ≤ idx + 1 then 0 else idx + 1
  let sc := sumCount buf2
  if sc.2 = 0 then (0, buf2, idx2)
  else (uint16 (sc.1 / sc.2), buf2, idx2)

/-- `throttlePercentFromUs` (main.cpp lines 144-163). `gMinPulse` and
`gMaxPulse` are the calibration globals, passed explicitly. All C
arithmetic here is on `int32_t` after integer promotion, with division
truncating toward zero (`Int.tdiv`); operand magnitudes stay far below
2^31 so the promotion is exact. -/
def throttlePercentFromUs (gMinPulse gMaxPulse us : Nat) : Int :=
  if gMaxPulse ≤ gMinPulse then 0
  else
    let span : Int := (gMaxPulse : Int) - (gMinPulse : Int)
    let step : Int := Int.tdiv span 200
    if step ≤ 0 then 0
    else
      let idx : Int := Int.tdiv ((us : Int) - (gMinPulse : Int)) step
      let value : Int := idx - 100
      if 100 < value then 100
      else if value < -100 then -100
      else value

/-- The mutable state touched by one iteration of `taskRcInput`
(`pulseBuffer`, `pulseIndex`, `gMinPulse`, `gMaxPulse`,
`gStablePercent`). `gStablePercent` is an `int16_t`; `0x7FFF = 32767`
is the invalid sentinel. -/
structure RcState where
  pulseBuffer : List Nat
  pulseIndex : Nat
  gMinPulse : Nat
  gMaxPulse : Nat
  gStablePercent : Int
  deriving DecidableEq, Repr

/-- One iteration of the `taskRcInput` loop body (main.cpp lines 251-271).
`nowMs` is the `millis()` reading; `us` and `seen` are the snapshot of
`gLastPulseUs` / `gLastSeenMs` taken under the interrupt mask. -/
def taskRcInputIter (nowMs us seen : Nat) (s : RcState) : RcState :=
  if 300 < u32sub nowMs seen then
    { s with gStablePercent := 32767 }
  else if 0 < us then
    let fp := filterPulse us s.pulseBuffer s.pulseIndex
    let avg := fp.1
    let mn := if avg < s.gMinPulse then avg else s.gMinPulse
    let mx := if s.gMaxPulse < avg then avg else s.gMaxPulse
    { pulseBuffer := fp.2.1, pulseIndex := fp.2.2,
      gMinPulse := mn, gMaxPulse := mx,
      gStablePercent := throttlePercentFromUs mn mx avg }
  else
    s

/-- The `Blinker` struct (main.cpp lines 202-236). The color callback
`apply` (a function pointer, `nullptr` when inactive) is modelled as an
`Option Nat` color identifier; LED writes are reported as explicit
`(color, on)` events instead of I/O. -/
structure Blinker where
  apply : Option Nat
  periodMs : Nat
  next : Nat
  isOn : Bool
  deriving DecidableEq, Repr

/-- The catch-up loop of `Blinker::run` (main.cpp line 231):
`do { next += periodMs; } while ((int32_t)(now - next) >= 0);`.
The body runs once and then repeats while the next deadline is still in
the (signed-wraparound) past. `fuel` bounds the remaining iterations;
`run` passes `u32sub now next`, which is proved sufficient below. -/
def catchUpGo (now p : Nat) : Nat → Nat → Nat
  | fuel, next =>
    let n2 := (next + p) % 4294967296
    match fuel with
    | 0 => n2
    | f + 1 => if u32sub now n2 < 2147483648 then catchUpGo now p f n2 else n2

/-- `Blinker::stop` (main.cpp lines 219-224): applies `false` (off) through
the callback when one is set, then clears `apply`, `on`, `periodMs`.
Returns the new state and the LED event issued, if any. -/
def Blinker.stop (b : Blinker) : Blinker × Option (Nat × Bool) :=
  (⟨none, 0, b.next, false⟩, b.apply.map (fun c => (c, false)))

/-- `Blinker::start` (main.cpp lines 209-216): stops first, then refuses a
null callback or a zero period, else arms the pattern with
`next = millis()` (the `now` argument). `period` is a `uint16_t`. -/
def Blinker.start (b : Blinker) (func : Option Nat) (period now : Nat) :
    Blinker × Option (Nat × Bool) :=
  let s := b.stop
  let p := uint16 period
  if func = none ∨ p = 0 then s
  else (⟨func, p, uint32 now, false⟩, s.2)

/-- `Blinker::run` (main.cpp lines 227-235): no-op when inactive or with a
zero period; otherwise, when the deadline has passed in signed-wraparound
terms, advances `next` by whole periods until it is in the future, flips
`on` once, and applies it. Returns the new state and the LED event, if
any. -/
def Blinker.run (b : Blinker) (now : Nat) : Blinker × Option (Nat × Bool) :=
  match b.apply with
  | none => (b, none)
  | some c =>
    if b.periodMs = 0 then (b, none)
    else
      let nowv := uint32 now
      if u32sub nowv b.next < 2147483648 then
        let next2 := catchUpGo nowv b.periodMs (u32sub nowv b.next) b.next
        let on2 := !b.isOn
        ({ b with next := next2, isOn := on2 }, some (c, on2))
      else (b, none)

/-! ## Helper lemmas -/

/-- Wrapping subtraction of a value from itself is zero. -/
theorem u32sub_self (a : Nat) : u32sub a a = 0 := by
  unfold u32sub; omega

/-- Effect of advancing the subtrahend by one period on the wrapped
difference. -/
theorem u32sub_add_period (now next p : Nat) (hp : p < 4294967296) :
    u32sub now ((next + p) % 4294967296) =
      (u32sub now next + (4294967296 - p)) % 4294967296 := by
  unfold u32sub; omega

/-- When the true (unwrapped) elapsed time fits in 32 bits, wrapping
subtraction of the truncated operands recovers it exactly. -/
theorem u32sub_of_le (R F : Nat) (h : R ≤ F) (hW : F - R < 4294967296) :
    u32sub F (R % 4294967296) = F - R := by
  unfold u32sub; omega

/-- The catch-up loop, given at least `u32sub now next` iterations of fuel,
always exits with a deadline strictly in the future in signed-wraparound
terms (`(int32_t)(now - next) < 0`). The source loop needs at most
`d / p + 1` body executions where `d = u32sub now next`, so fuel `d`
never runs out (one execution is built in even at fuel 0). -/
theorem catchUpGo_future (now p : Nat) (hp : 0 < p) (hp16 : p < 65536) :
    ∀ fuel next, u32sub now next ≤ fuel → u32sub now next < 2147483648 →
      2147483648 ≤ u32sub now (catchUpGo now p fuel next) := by
  intro fuel
  induction fuel with
  | zero =>
    intro next hfuel hd
    have h2 := u32sub_add_period now next p (by omega)
    simp only [catchUpGo]
    omega
  | succ f ih =>
    intro next hfuel hd
    have h2 := u32sub_add_period now next p (by omega)
    simp only [catchUpGo]
    split
    · rename_i hcond
      exact ih _ (by omega) (by omega)
    · rename_i hcond
      omega

/-- The catch-up loop only ever advances the deadline by whole periods:
the result is `next + m * p` (mod 2^32) for some `m ≥ 1`. -/
theorem catchUpGo_grid (now p : Nat) :
    ∀ fuel next, ∃ m, 1 ≤ m ∧
      catchUpGo now p fuel next = (next + m * p) % 4294967296 := by
  intro fuel
  induction fuel with
  | zero =>
    intro next
    exact ⟨1, le_refl 1, by simp [catchUpGo]⟩
  | succ f ih =>
    intro next
    simp only [catchUpGo]
    split
    · obtain ⟨m, hm, heq⟩ := ih ((next + p) % 4294967296)
      refine ⟨m + 1, by omega, ?_⟩
      rw [heq, Nat.mod_add_mod]
      congr 1
      ring
    · exact ⟨1, le_refl 1, by rw [Nat.one_mul]⟩

/-- The summation loop ignores zero entries: over an all-zero list it
returns its accumulator unchanged. -/
theorem sumCountGo_all_zero (l : List Nat) (sc : Nat × Nat)
    (h : ∀ x ∈ l, x = 0) : sumCountGo l sc = sc := by
  induction l generalizing sc with
  | nil => rfl
  | cons v rest ih =>
    have hv : v = 0 := h v (List.mem_cons_self v rest)
    simp only [sumCountGo, hv]
    exact ih sc (fun x hx => h x (List.mem_cons_of_mem v hx))

/-- The final clamp of `throttlePercentFromUs` keeps any value in
`[-100, 100]`. -/
theorem clampRange (v : Int) :
    -100 ≤ (if 100 < v then (100 : Int) else if v < -100 then -100 else v) ∧
    (if 100 < v then (100 : Int) else if v < -100 then -100 else v) ≤ 100 := by
  split_ifs <;> omega

/-- `throttlePercentFromUs` always lands in `[-100, 100]`, whatever the
calibration state and input width. -/
theorem throttleRange (mn mx us : Nat) :
    -100 ≤ throttlePercentFromUs mn mx us ∧ throttlePercentFromUs mn mx us ≤ 100 := by
  simp only [throttlePercentFromUs]
  by_cases h1 : mx ≤ mn
  · simp [h1]
  · simp only [if_neg h1]
    by_cases h2 : Int.tdiv ((mx : Int) - (mn : Int)) 200 ≤ 0
    · simp [h2]
    · simp only [if_neg h2]
      exact clampRange _

/-- The percent mapping can never produce the invalid sentinel `0x7FFF`. -/
theorem throttleNeSentinel (mn mx us : Nat) :
    throttlePercentFromUs mn mx us ≠ 32767 := by
  have h := (throttleRange mn mx us).2
  omega

/-! ## Claim theorems -/

/-- C2: on a falling edge whose computed width lies outside the valid band
[800, 2200], `onRcChange` leaves the whole capture state — in particular
both published fields `gLastPulseUs` and `gLastSeenMs` — unchanged;
consequently after any falling edge the published width is either the
previous one or lies within the valid band. -/
theorem capture_out_of_band_unchanged (t ms : Nat) (s : CaptureState) :
    (¬ (800 ≤ uint16 (captureWidth s.gRiseUs t) ∧
        uint16 (captureWidth s.gRiseUs t) ≤ 2200) →
      onRcChange false t ms s = s) ∧
    ((onRcChange false t ms s).gLastPulseUs = s.gLastPulseUs ∨
      (800 ≤ (onRcChange false t ms s).gLastPulseUs ∧
       (onRcChange false t ms s).gLastPulseUs ≤ 2200)) := by
  unfold onRcChange
  by_cases h : 800 ≤ uint16 (captureWidth s.gRiseUs t) ∧
      uint16 (captureWidth s.gRiseUs t) ≤ 2200
  · simp [h]
  · simp [h]

/-- Witness for C2 at a concrete out-of-band falling edge (width 100):
the state is untouched. -/
theorem capture_out_of_band_unchanged_witness :
    (¬ (800 ≤ uint16 (captureWidth 0 100) ∧
        uint16 (captureWidth 0 100) ≤ 2200) →
      onRcChange false 100 5 ⟨0, 1500, 9⟩ = ⟨0, 1500, 9⟩) ∧
    ((onRcChange false 100 5 ⟨0, 1500, 9⟩).gLastPulseUs = 1500 ∨
      (800 ≤ (onRcChange false 100 5 ⟨0, 1500, 9⟩).gLastPulseUs ∧
       (onRcChange false 100 5 ⟨0, 1500, 9⟩).gLastPulseUs ≤ 2200)) :=
  capture_out_of_band_unchanged 100 5 ⟨0, 1500, 9⟩

/-- C3: staleness dominates width. Whenever the wrapped elapsed time
`millis() - gLastSeenMs` exceeds `RC_TIMEOUT_MS = 300`, one iteration of
the input task publishes the invalid sentinel `0x7FFF = 32767`,
regardless of the stored width. -/
theorem stale_forces_invalid (nowMs us seen : Nat) (s : RcState)
    (h : 300 < u32sub nowMs seen) :
    (taskRcInputIter nowMs us seen s).gStablePercent = 32767 := by
  simp [taskRcInputIter, h]

/-- Witness for C3: a perfectly in-range stored width (1500) still yields
the sentinel once the sample is 1000 ms old. -/
theorem stale_forces_invalid_witness :
    300 < u32sub 1000 0 ∧
    (taskRcInputIter 1000 1500 0
      ⟨List.replicate 32 0, 0, 2000, 1000, 0⟩).gStablePercent = 32767 :=
  ⟨by decide, stale_forces_invalid 1000 1500 0 _ (by decide)⟩

/-- C4 counterexample: the lower bound of the capture filter is inclusive
(`us >= RC_MIN_US`), not exclusive. A falling edge whose computed width
is exactly 800 (rise at 0, fall at 800) is published: both fields are
overwritten, contradicting the claim that it is discarded. -/
theorem capture_min_width_published_cex :
    uint16 (captureWidth 0 800) = 800 ∧
    (onRcChange false 800 7 ⟨0, 0, 0⟩).gLastPulseUs = 800 ∧
    (onRcChange false 800 7 ⟨0, 0, 0⟩).gLastSeenMs = 7 := by decide

/-- C4 amended: the capture filter's lower bound is inclusive — every
falling edge whose computed width is exactly `RC_MIN_US = 800` is
published, overwriting both sample fields. -/
theorem capture_lower_bound_inclusive (t ms : Nat) (s : CaptureState)
    (h : uint16 (captureWidth s.gRiseUs t) = 800) :
    (onRcChange false t ms s).gLastPulseUs = 800 ∧
    (onRcChange false t ms s).gLastSeenMs = uint32 ms := by
  simp [onRcChange, h]

/-- Witness for the amended C4 at rise 1000, fall 1800, width exactly 800. -/
theorem capture_lower_bound_inclusive_witness :
    uint16 (captureWidth 1000 1800) = 800 ∧
    (onRcChange false 1800 42 ⟨1000, 0, 0⟩).gLastPulseUs = 800 ∧
    (onRcChange false 1800 42 ⟨1000, 0, 0⟩).gLastSeenMs = uint32 42 :=
  ⟨by decide, capture_lower_bound_inclusive 1800 42 ⟨1000, 0, 0⟩ (by decide)⟩

/-- C10: `filterPulse` is safe and total. Starting from any reachable
buffer state (index < 32, 32 entries), the returned write index is again
strictly below 32, the buffer keeps its 32 entries (the write at
`idx < 32` is in bounds), and when the buffer holds no nonzero entry the
function returns 0 without dividing (`count == 0` branch). -/
theorem filterPulse_safe (newVal : Nat) (buf : List Nat) (idx : Nat)
    (hidx : idx < 32) (hlen : buf.length = 32) :
    (filterPulse newVal buf idx).2.2 < 32 ∧
    (filterPulse newVal buf idx).2.1.length = 32 ∧
    ((∀ x ∈ (filterPulse newVal buf idx).2.1, x = 0) →
      (filterPulse newVal buf idx).1 = 0) := by
  have hproj : (filterPulse newVal buf idx).2.1 = buf.set idx (uint16 newVal) := by
    simp only [filterPulse]
    split <;> rfl
  refine ⟨?_, ?_, ?_⟩
  · simp only [filterPulse]
    split <;> simp <;> split_ifs <;> omega
  · rw [hproj, List.length_set, hlen]
  · intro hz
    rw [hproj] at hz
    have hsc : sumCount (buf.set idx (uint16 newVal)) = (0, 0) :=
      sumCountGo_all_zero _ _ hz
    simp [filterPulse, hsc]

/-- Witness for C10 on a concrete all-zero buffer at index 31 (the wrap
point): the new index is 0 and the returned average is 0. -/
theorem filterPulse_safe_witness :
    (filterPulse 0 (List.replicate 32 0) 31).2.2 < 32 ∧
    (filterPulse 0 (List.replicate 32 0) 31).2.1.length = 32 ∧
    ((∀ x ∈ (filterPulse 0 (List.replicate 32 0) 31).2.1, x = 0) →
      (filterPulse 0 (List.replicate 32 0) 31).1 = 0) :=
  filterPulse_safe 0 (List.replicate 32 0) 31 (by decide) (by decide)

/-- C7 counterexample: the input task performs no independent band
re-check. With a fresh (elapsed 0 ≤ 300) stored width of 2500 — outside
the valid band [800, 2200] — one iteration from the boot state publishes
percent 100, not the NEUTRAL-equivalent sentinel 32767: the out-of-band
width is filtered, fed to calibration, and mapped like any other. -/
theorem no_band_recheck_cex :
    ¬ (800 ≤ 2500 ∧ 2500 ≤ 2200) ∧
    u32sub 0 0 ≤ 300 ∧
    (taskRcInputIter 0 2500 0
      ⟨List.replicate 32 0, 0, 2000, 1000, 32767⟩).gStablePercent = 100 := by decide

/-- C7 amended: the input task re-checks nothing about the band. Any
fresh, nonzero stored width — in band or not — is processed through the
moving-average filter and percent mapping, yielding a percent in
`[-100, 100]`; it is never treated like staleness (never the sentinel
32767). Only the capture handler filters on the band. -/
theorem fresh_nonzero_width_processed (nowMs us seen : Nat) (s : RcState)
    (hfresh : ¬ 300 < u32sub nowMs seen) (hus : 0 < us) :
    -100 ≤ (taskRcInputIter nowMs us seen s).gStablePercent ∧
    (taskRcInputIter nowMs us seen s).gStablePercent ≤ 100 ∧
    (taskRcInputIter nowMs us seen s).gStablePercent ≠ 32767 := by
  simp only [taskRcInputIter, if_neg hfresh, if_pos hus]
  exact ⟨(throttleRange _ _ _).1, (throttleRange _ _ _).2, throttleNeSentinel _ _ _⟩

/-- Witness for the amended C7 at the out-of-band width 2500, fresh. -/
theorem fresh_nonzero_width_processed_witness :
    ¬ 300 < u32sub 0 0 ∧ 0 < 2500 ∧
    (-100 ≤ (taskRcInputIter 0 2500 0
        ⟨List.replicate 32 0, 0, 2000, 1000, 32767⟩).gStablePercent ∧
     (taskRcInputIter 0 2500 0
        ⟨List.replicate 32 0, 0, 2000, 1000, 32767⟩).gStablePercent ≤ 100 ∧
     (taskRcInputIter 0 2500 0
        ⟨List.replicate 32 0, 0, 2000, 1000, 32767⟩).gStablePercent ≠ 32767) :=
  ⟨by decide, by decide,
   fresh_nonzero_width_processed 0 2500 0 _ (by decide) (by decide)⟩

/-- C8: wraparound safety of the capture width. For true (unwrapped)
event times `R ≤ F` whose distance fits in 32 bits, the handler's
modular subtraction recovers exactly `F - R` — clamped to `0xFFFF` when
it exceeds 16 bits — even when the `uint32_t` timer wrapped between the
edges (`F mod 2^32 < R mod 2^32`); and in that wrapped case an in-band
width is published intact by the rise/fall pair. -/
theorem capture_wraparound (R F m0 ms : Nat) (s : CaptureState)
    (hRF : R ≤ F) (hW : F - R < 4294967296) :
    (captureWidth (uint32 R) F = if 65535 < F - R then 65535 else F - R) ∧
    (uint32 F < uint32 R → 800 ≤ F - R → F - R ≤ 2200 →
      (onRcChange false F ms (onRcChange true R m0 s)).gLastPulseUs = F - R ∧
      (onRcChange false F ms (onRcChange true R m0 s)).gLastSeenMs = uint32 ms) := by
  have hsub : u32sub F (uint32 R) = F - R := u32sub_of_le R F hRF hW
  constructor
  · unfold captureWidth
    rw [hsub]
  · intro _ h8 h22
    have hus : uint16 (captureWidth (uint32 R) F) = F - R := by
      unfold captureWidth uint16
      rw [hsub, if_neg (by omega)]
      omega
    have hrise : onRcChange true R m0 s = { s with gRiseUs := uint32 R } := by
      simp [onRcChange]
    rw [hrise]
    simp only [onRcChange, Bool.false_eq_true, if_false]
    rw [hus, if_pos ⟨h8, h22⟩]
    exact ⟨rfl, rfl⟩

/-- Witness for C8: rise at `2^32 - 500`, fall 1500 ticks later at the
wrapped reading 1000; the published width is exactly 1500. -/
theorem capture_wraparound_witness :
    4294966796 ≤ 4294968296 ∧ 4294968296 - 4294966796 < 4294967296 ∧
    (onRcChange false 4294968296 50
      (onRcChange true 4294966796 10 ⟨0, 0, 0⟩)).gLastPulseUs = 1500 :=
  ⟨by decide, by decide,
   ((capture_wraparound 4294966796 4294968296 10 50 ⟨0, 0, 0⟩
      (by decide) (by decide)).2 (by decide) (by decide) (by decide)).1⟩

/-- C9: the percent mapping is always in `[-100, 100]`; it returns 0 when
calibration is degenerate (`gMaxPulse <= gMinPulse`) and when the span
step `span / 200` is zero; and consequently one iteration of the input
task preserves the invariant that `gStablePercent` holds either the
sentinel `0x7FFF = 32767` or a value in `[-100, 100]`. -/
theorem percent_range_invariant :
    (∀ mn mx us : Nat, -100 ≤ throttlePercentFromUs mn mx us ∧
        throttlePercentFromUs mn mx us ≤ 100) ∧
    (∀ mn mx us : Nat, mx ≤ mn → throttlePercentFromUs mn mx us = 0) ∧
    (∀ mn mx us : Nat, Int.tdiv ((mx : Int) - (mn : Int)) 200 = 0 →
        throttlePercentFromUs mn mx us = 0) ∧
    (∀ nowMs us seen : Nat, ∀ s : RcState,
      (s.gStablePercent = 32767 ∨
        (-100 ≤ s.gStablePercent ∧ s.gStablePercent ≤ 100)) →
      ((taskRcInputIter nowMs us seen s).gStablePercent = 32767 ∨
        (-100 ≤ (taskRcInputIter nowMs us seen s).gStablePercent ∧
         (taskRcInputIter nowMs us seen s).gStablePercent ≤ 100))) := by
  refine ⟨throttleRange, ?_, ?_, ?_⟩
  · intro mn mx us h
    simp [throttlePercentFromUs, h]
  · intro mn mx us h
    simp only [throttlePercentFromUs]
    by_cases h1 : mx ≤ mn
    · simp [h1]
    · simp [if_neg h1, h]
  · intro nowMs us seen s hinv
    simp only [taskRcInputIter]
    split_ifs <;>
      first
        | (left; rfl)
        | (right; exact throttleRange _ _ _)
        | exact hinv

/-- Witness for C9 exercising the range, both degenerate cases, and the
iteration invariant at concrete inputs. -/
theorem percent_range_invariant_witness :
    (-100 ≤ throttlePercentFromUs 1000 2000 1500 ∧
      throttlePercentFromUs 1000 2000 1500 ≤ 100) ∧
    throttlePercentFromUs 2000 1000 1500 = 0 ∧
    throttlePercentFromUs 1000 1100 1500 = 0 ∧
    ((taskRcInputIter 0 1500 0
        ⟨List.replicate 32 0, 0, 2000, 1000, 32767⟩).gStablePercent = 32767 ∨
      (-100 ≤ (taskRcInputIter 0 1500 0
          ⟨List.replicate 32 0, 0, 2000, 1000, 32767⟩).gStablePercent ∧
       (taskRcInputIter 0 1500 0
          ⟨List.replicate 32 0, 0, 2000, 1000, 32767⟩).gStablePercent ≤ 100)) :=
  ⟨percent_range_invariant.1 1000 2000 1500,
   percent_range_invariant.2.1 2000 1000 1500 (by decide),
   percent_range_invariant.2.2.1 1000 1100 1500 (by decide),
   percent_range_invariant.2.2.2 0 1500 0 _ (Or.inl (by decide))⟩

/-- C5 counterexample: `start` arms `next = millis()` — the current time,
not `now + periodMs`. Starting at time 1000 with period 200, the very
first `run` call at time 1000 (0 ms elapsed, well before one period)
already fires a toggle, contradicting the claim that no toggle of the
new pattern occurs before `periodMs` has elapsed. -/
theorem start_immediate_cex :
    ((Blinker.start ⟨none, 0, 0, false⟩ (some 1) 200 1000).1).next = 1000 ∧
    (((Blinker.start ⟨none, 0, 0, false⟩ (some 1) 200 1000).1).run 1000).2 =
      some (1, true) := by decide

/-- C5 amended: `start(color, period)` schedules the first toggle at the
start time itself (`next = millis()`), so the first `run` call at the
start time immediately fires the first ON toggle. -/
theorem start_schedules_at_now (b : Blinker) (c period now : Nat)
    (hp : 0 < uint16 period) :
    ((b.start (some c) period now).1).next = uint32 now ∧
    (((b.start (some c) period now).1).run now).2 = some (c, true) := by
  have hcond : ¬ ((some c : Option Nat) = none ∨ uint16 period = 0) := by
    simp
    omega
  constructor
  · simp only [Blinker.start, if_neg hcond]
  · simp only [Blinker.start, if_neg hcond, Blinker.run]
    rw [if_neg (by omega : ¬ uint16 period = 0),
      if_pos (by rw [u32sub_self]; norm_num :
        u32sub (uint32 now) (uint32 now) < 2147483648)]
    rfl

/-- Witness for the amended C5 at start time 5000, period 300. -/
theorem start_schedules_at_now_witness :
    0 < uint16 300 ∧
    ((Blinker.start ⟨some 9, 100, 7, true⟩ (some 2) 300 5000).1).next = uint32 5000 ∧
    (((Blinker.start ⟨some 9, 100, 7, true⟩ (some 2) 300 5000).1).run 5000).2 =
      some (2, true) :=
  ⟨by decide, start_schedules_at_now ⟨some 9, 100, 7, true⟩ 2 300 5000 (by decide)⟩

/-- C1 counterexample: the `Blinker` of the source has no toggle budget.
Start a pattern at time 0 with period 200 and take the claim's `n = 1`:
after the `n * 2 = 2` toggle deadlines (ON at 0, OFF at 200) the pattern
must, per the claim, be INACTIVE with no further effect — but the third
`run` at time 400 fires ON again and the pattern is still armed. -/
theorem blinker_bounded_cex :
    ((Blinker.start ⟨none, 0, 0, false⟩ (some 1) 200 0).1.run 0).2 = some (1, true) ∧
    (((Blinker.start ⟨none, 0, 0, false⟩ (some 1) 200 0).1.run 0).1.run 200).2 =
      some (1, false) ∧
    ((((Blinker.start ⟨none, 0, 0, false⟩ (some 1) 200 0).1.run 0).1.run 200).1.run
      400).2 = some (1, true) ∧
    ((((Blinker.start ⟨none, 0, 0, false⟩ (some 1) 200 0).1.run 0).1.run 200).1.run
      400).1.apply = some 1 := by decide

/-- C1 amended: `start(color, period)` arms an unbounded pattern (there is
no toggle count in this variant): an active pattern stays armed after
every `run` call and never self-terminates; `run` on an inactive blinker
changes nothing and emits no output; only `stop` deactivates it, forcing
the output off. -/
theorem blinker_unbounded_until_stop (b : Blinker) (now c : Nat) :
    (b.apply = some c → 0 < b.periodMs →
      ((b.run now).1).apply = some c ∧ ((b.run now).1).periodMs = b.periodMs) ∧
    (b.apply = none → b.run now = (b, none)) ∧
    ((b.stop).1.apply = none ∧ (b.stop).1.isOn = false ∧
      (b.stop).1.periodMs = 0) ∧
    (b.apply = some c → (b.stop).2 = some (c, false)) := by
  obtain ⟨a, p, nx, o⟩ := b
  refine ⟨?_, ?_, ⟨rfl, rfl, rfl⟩, ?_⟩
  · intro ha hp
    cases ha
    have hp2 : 0 < p := hp
    simp only [Blinker.run]
    rw [if_neg (by omega : ¬ p = 0)]
    split <;> exact ⟨rfl, rfl⟩
  · intro ha
    cases ha
    rfl
  · intro ha
    cases ha
    rfl

/-- Witness for the amended C1 at a concrete armed blinker. -/
theorem blinker_unbounded_until_stop_witness :
    ((⟨some 2, 100, 50, true⟩ : Blinker).apply = some 2 →
      0 < (⟨some 2, 100, 50, true⟩ : Blinker).periodMs →
      (((⟨some 2, 100, 50, true⟩ : Blinker).run 75).1).apply = some 2 ∧
      (((⟨some 2, 100, 50, true⟩ : Blinker).run 75).1).periodMs =
        (⟨some 2, 100, 50, true⟩ : Blinker).periodMs) ∧
    ((⟨some 2, 100, 50, true⟩ : Blinker).apply = none →
      (⟨some 2, 100, 50, true⟩ : Blinker).run 75 =
        (⟨some 2, 100, 50, true⟩, none)) ∧
    (((⟨some 2, 100, 50, true⟩ : Blinker).stop).1.apply = none ∧
      ((⟨some 2, 100, 50, true⟩ : Blinker).stop).1.isOn = false ∧
      ((⟨some 2, 100, 50, true⟩ : Blinker).stop).1.periodMs = 0) ∧
    ((⟨some 2, 100, 50, true⟩ : Blinker).apply = some 2 →
      ((⟨some 2, 100, 50, true⟩ : Blinker).stop).2 = some (2, false)) :=
  blinker_unbounded_until_stop ⟨some 2, 100, 50, true⟩ 75 2

/-- C6: drift-free scheduling. For an active pattern whose deadline lies
on the grid `start_time + j * period` (mod 2^32), one `run` call either
does nothing (deadline still in the future) or performs exactly one
toggle (`isOn` flips once, one LED event) and moves the deadline to
`start_time + k * period` (mod 2^32) for some integer `k`, strictly in
the future in signed-wraparound terms — whole periods only, never offset
by the lateness of the call. -/
theorem blinker_drift_free (c p nextv s0 j now : Nat) (o : Bool)
    (hp : 0 < p) (hp16 : p < 65536)
    (hgrid : nextv = (s0 + j * p) % 4294967296) :
    (Blinker.run ⟨some c, p, nextv, o⟩ now = (⟨some c, p, nextv, o⟩, none)) ∨
    ((Blinker.run ⟨some c, p, nextv, o⟩ now).2 = some (c, !o) ∧
     (Blinker.run ⟨some c, p, nextv, o⟩ now).1.isOn = !o ∧
     (Blinker.run ⟨some c, p, nextv, o⟩ now).1.apply = some c ∧
     (Blinker.run ⟨some c, p, nextv, o⟩ now).1.periodMs = p ∧
     ∃ k, (Blinker.run ⟨some c, p, nextv, o⟩ now).1.next =
        (s0 + k * p) % 4294967296 ∧
       2147483648 ≤ u32sub (uint32 now)
         ((Blinker.run ⟨some c, p, nextv, o⟩ now).1.next)) := by
  simp only [Blinker.run]
  rw [if_neg (by omega : ¬ p = 0)]
  by_cases hfire : u32sub (uint32 now) nextv < 2147483648
  · right
    rw [if_pos hfire]
    refine ⟨rfl, rfl, rfl, rfl, ?_⟩
    obtain ⟨m, hm, heq⟩ :=
      catchUpGo_grid (uint32 now) p (u32sub (uint32 now) nextv) nextv
    refine ⟨j + m, ?_, ?_⟩
    · show catchUpGo (uint32 now) p (u32sub (uint32 now) nextv) nextv =
        (s0 + (j + m) * p) % 4294967296
      rw [heq, hgrid, Nat.mod_add_mod]
      congr 1
      ring
    · show 2147483648 ≤
        u32sub (uint32 now) (catchUpGo (uint32 now) p (u32sub (uint32 now) nextv) nextv)
      exact catchUpGo_future (uint32 now) p hp hp16 _ nextv (le_refl _) hfire
  · left
    rw [if_neg hfire]

/-- Witness for C6: a pattern started on the grid at 0 with period 200,
run for the first time 5 periods late (time 1000): the conclusion holds
there — concretely the deadline lands on 1200 = 0 + 6 * 200, not
1000 + 200. -/
theorem blinker_drift_free_witness :
    0 < 200 ∧ 200 < 65536 ∧ (0 : Nat) = (0 + 0 * 200) % 4294967296 ∧
    ((Blinker.run ⟨some 1, 200, 0, false⟩ 1000 = (⟨some 1, 200, 0, false⟩, none)) ∨
     ((Blinker.run ⟨some 1, 200, 0, false⟩ 1000).2 = some (1, !false) ∧
      (Blinker.run ⟨some 1, 200, 0, false⟩ 1000).1.isOn = !false ∧
      (Blinker.run ⟨some 1, 200, 0, false⟩ 1000).1.apply = some 1 ∧
      (Blinker.run ⟨some 1, 200, 0, false⟩ 1000).1.periodMs = 200 ∧
      ∃ k, (Blinker.run ⟨some 1, 200, 0, false⟩ 1000).1.next =
          (0 + k * 200) % 4294967296 ∧
        2147483648 ≤ u32sub (uint32 1000)
          ((Blinker.run ⟨some 1, 200, 0, false⟩ 1000).1.next))) :=
  ⟨by decide, by decide, by decide,
   blinker_drift_free 1 200 0 0 0 1000 false (by decide) (by decide) (by decide)⟩

end ArdPorte
